import Mathlib

/-!
Verification development for mooncalc (moon position, illumination and
rise/set times, a Python port of suncalc.js restricted to the moon).

Modelling conventions:
* Python floats are modelled as real numbers.
* Python exceptions are modelled with an explicit error type: the
  division `-b / (2 * a)` raises ZeroDivisionError when `a = 0`, and the
  final classification expression `not rise and not set & ye > 0`
  (which under Python precedence is `(not rise) and (not ((set & ye) > 0))`)
  raises TypeError whenever it is evaluated, because `ye` is always a
  float at that point and the bitwise `&` is undefined on floats.
* The calendar/timezone collaborator (time.localtime, time.mktime,
  time.timezone) is out of scope per the spec; functions that call it
  take it as a parameter (from_julian) or take the already-normalised
  local midnight (get_moon_times).
* The rise/set scan of get_moon_times only consumes the sampled
  corrected altitudes; the loop is therefore factored through an
  altitude profile (a function from hour offsets to corrected
  altitudes), which get_moon_times instantiates with the sampled
  output of get_moon_position.
-/

noncomputable section

/-- RAD = pi/180 (mooncalc.py line 21). -/
def RAD : ℝ := Real.pi / 180

/-- DAYS_SEC = 60*60*24 (line 26). -/
def DAYS_SEC : ℝ := 60 * 60 * 24

/-- J1970 = 2440588 (line 32). -/
def J1970 : ℝ := 2440588

/-- J2000 = 2451545 (line 33). -/
def J2000 : ℝ := 2451545

/-- to_julian (line 35): date / DAYS_SEC - 0.5 + J1970. -/
def to_julian (date : ℝ) : ℝ := date / DAYS_SEC - 0.5 + J1970

/-- from_julian_seconds: the epoch-seconds value `(j + 0.5 - J1970) * DAYS_SEC`
that from_julian (line 38) passes to the calendar collaborator
time.localtime. -/
def from_julian_seconds (j : ℝ) : ℝ := (j + 0.5 - J1970) * DAYS_SEC

/-- from_julian (line 38) applies the external calendar collaborator
time.localtime (out of scope per spec section 6) to
from_julian_seconds; the collaborator is a parameter here. -/
def from_julian {α : Type} (localtime : ℝ → α) (j : ℝ) : α :=
  localtime (from_julian_seconds j)

/-- to_days (line 42): to_julian date - J2000. -/
def to_days (date : ℝ) : ℝ := to_julian date - J2000

/-- E = RAD * 23.4397, obliquity of the Earth (line 46). -/
def E : ℝ := RAD * 23.4397

/-- atan2 y x, the two-argument arctangent used via math.atan2: the
angle of the point (x, y), in (-pi, pi], with atan2 0 0 = 0 as in
Python.  Modelled by the argument of the complex number x + y*I. -/
def atan2 (y x : ℝ) : ℝ := Complex.arg ⟨x, y⟩

/-- right_ascension (line 48). -/
def right_ascension (l b : ℝ) : ℝ :=
  atan2 (Real.sin l * Real.cos E - Real.tan b * Real.sin E) (Real.cos l)

/-- declination (line 52). -/
def declination (l b : ℝ) : ℝ :=
  Real.arcsin (Real.sin b * Real.cos E + Real.cos b * Real.sin E * Real.sin l)

/-- azimuth (line 56). -/
def azimuth (H phi dec : ℝ) : ℝ :=
  atan2 (Real.sin H) (Real.cos H * Real.sin phi - Real.tan dec * Real.cos phi)

/-- altitude (line 60). -/
def altitude (H phi dec : ℝ) : ℝ :=
  Real.arcsin (Real.sin phi * Real.sin dec + Real.cos phi * Real.cos dec * Real.cos H)

/-- sidereal_time (line 64). -/
def sidereal_time (d lw : ℝ) : ℝ := RAD * (280.16 + 360.9856235 * d) - lw

/-- astro_refraction (lines 68-77): the input altitude is clamped to 0
when negative, then formula 16.4 of Meeus is evaluated. -/
def astro_refraction (h : ℝ) : ℝ :=
  let h' := if h < 0 then 0 else h
  0.0002967 / Real.tan (h' + 0.00312536 / (h' + 0.08901179))

/-- solar_mean_anomaly (line 86). -/
def solar_mean_anomaly (d : ℝ) : ℝ := RAD * (357.5291 + 0.98560028 * d)

/-- ecliptic_longitude (line 92): M + C + P + pi with the 3-term
equation of center C and perihelion P. -/
def ecliptic_longitude (M : ℝ) : ℝ :=
  M + RAD * (1.9148 * Real.sin M + 0.02 * Real.sin (2 * M)
      + 0.0003 * Real.sin (3 * M)) + RAD * 102.9372 + Real.pi

/-- SunCoordsStruct (line 98). -/
structure SunCoordsStruct where
  dec : ℝ
  ra : ℝ

/-- sun_coords (line 100). -/
def sun_coords (d : ℝ) : SunCoordsStruct :=
  let M := solar_mean_anomaly d
  let L := ecliptic_longitude M
  ⟨declination L 0, right_ascension L 0⟩

/-- MoonCoordsStruct (line 136). -/
structure MoonCoordsStruct where
  ra : ℝ
  dec : ℝ
  dist : ℝ

/-- moon_coords (line 139): geocentric ecliptic coordinates of the moon. -/
def moon_coords (d : ℝ) : MoonCoordsStruct :=
  let L := RAD * (218.316 + 13.176396 * d)
  let M := RAD * (134.963 + 13.064993 * d)
  let F := RAD * (93.272 + 13.229350 * d)
  let l := L + RAD * 6.289 * Real.sin M
  let b := RAD * 5.128 * Real.sin F
  let dt := 385001 - 20905 * Real.cos M
  ⟨right_ascension l b, declination l b, dt⟩

/-- MoonPositionStruct (line 155). -/
structure MoonPositionStruct where
  azimuth : ℝ
  altitude : ℝ
  distance : ℝ
  parallactic_angle : ℝ

/-- get_moon_position (line 158). -/
def get_moon_position (date lat lng : ℝ) : MoonPositionStruct :=
  let lw := RAD * (-lng)
  let phi := RAD * lat
  let d := to_days date
  let c := moon_coords d
  let H := sidereal_time d lw - c.ra
  let h := altitude H phi c.dec
  let pa := atan2 (Real.sin H) (Real.tan phi * Real.cos c.dec - Real.sin c.dec * Real.cos H)
  let h2 := h + astro_refraction h
  ⟨azimuth H phi c.dec, h2, c.dist, pa⟩

/-- MoonIlluminationStruct (line 189). -/
structure MoonIlluminationStruct where
  fraction : ℝ
  phase : ℝ
  angle : ℝ

/-- illumPhi: the local variable phi of get_moon_illumination (line 202). -/
def illumPhi (date : ℝ) : ℝ :=
  let d := to_days date
  let s := sun_coords d
  let m := moon_coords d
  Real.arccos (Real.sin s.dec * Real.sin m.dec
    + Real.cos s.dec * Real.cos m.dec * Real.cos (s.ra - m.ra))

/-- illumInc: the local variable inc of get_moon_illumination (line 204),
with sdist = 149598000 km. -/
def illumInc (date : ℝ) : ℝ :=
  let m := moon_coords (to_days date)
  atan2 (149598000 * Real.sin (illumPhi date))
        (m.dist - 149598000 * Real.cos (illumPhi date))

/-- illumAngle: the local variable angle of get_moon_illumination (line 205). -/
def illumAngle (date : ℝ) : ℝ :=
  let d := to_days date
  let s := sun_coords d
  let m := moon_coords d
  atan2 (Real.cos s.dec * Real.sin (s.ra - m.ra))
        (Real.sin s.dec * Real.cos m.dec
          - Real.cos s.dec * Real.sin m.dec * Real.cos (s.ra - m.ra))

/-- get_moon_illumination (line 194). -/
def get_moon_illumination (date : ℝ) : MoonIlluminationStruct :=
  ⟨(1 + Real.cos (illumInc date)) / 2,
   0.5 + 0.5 * illumInc date * (if illumAngle date < 0 then -1 else 1) / Real.pi,
   illumAngle date⟩

/-- hours_later (line 215). -/
def hours_later (date h : ℝ) : ℝ := date + 60 * 60 * h

/-- MoonTimesStruct (line 224).  On the successful path rise/set are
timestamps or the sentinel -1, and the two flags come from the
classification expressions of lines 277-278. -/
structure MoonTimesStruct where
  rise : ℝ
  set : ℝ
  alwaysup : Bool
  alwaysdown : Bool

/-- PyErr: the Python exceptions reachable inside get_moon_times. -/
inductive PyErr where
  | zeroDivision : PyErr
  | typeError : PyErr
deriving DecidableEq

/-- LoopState: the loop variables of get_moon_times that survive from
one 2-hour window to the next and are read later (h0, rise, set, ye).
The remaining locals (a, b, xe, d, dx, x1, x2, roots) are freshly
assigned before every use inside a window. -/
structure LoopState where
  h0 : ℝ
  rise : ℝ
  set : ℝ
  ye : ℝ

/-- hc = 0.133 * RAD (line 238). -/
def hc : ℝ := 0.133 * RAD

/-- stepA: local a = (h0 + h2) / 2 - h1 (line 248), for the window at
hour i of the altitude profile hFun, with carried altitude h0. -/
def stepA (hFun : ℕ → ℝ) (i : ℕ) (h0 : ℝ) : ℝ :=
  (h0 + hFun (i + 1)) / 2 - hFun i

/-- stepB: local b = (h2 - h0) / 2 (line 249). -/
def stepB (hFun : ℕ → ℝ) (i : ℕ) (h0 : ℝ) : ℝ :=
  (hFun (i + 1) - h0) / 2

/-- stepXe: local xe = -b / (2 * a) (line 250); in Python this raises
ZeroDivisionError when a = 0, which windowStep checks first. -/
def stepXe (hFun : ℕ → ℝ) (i : ℕ) (h0 : ℝ) : ℝ :=
  -stepB hFun i h0 / (2 * stepA hFun i h0)

/-- stepYe: local ye = (a * xe + b) * xe + h1 (line 251). -/
def stepYe (hFun : ℕ → ℝ) (i : ℕ) (h0 : ℝ) : ℝ :=
  (stepA hFun i h0 * stepXe hFun i h0 + stepB hFun i h0) * stepXe hFun i h0 + hFun i

/-- stepD: local d = b * b - 4 * a * h1 (line 252). -/
def stepD (hFun : ℕ → ℝ) (i : ℕ) (h0 : ℝ) : ℝ :=
  stepB hFun i h0 * stepB hFun i h0 - 4 * stepA hFun i h0 * hFun i

/-- stepDx: local dx = sqrt(d) / (abs(a) * 2) (line 256). -/
def stepDx (hFun : ℕ → ℝ) (i : ℕ) (h0 : ℝ) : ℝ :=
  Real.sqrt (stepD hFun i h0) / (|stepA hFun i h0| * 2)

/-- stepX1: local x1 = xe - dx (line 257), before the swap of line 261. -/
def stepX1 (hFun : ℕ → ℝ) (i : ℕ) (h0 : ℝ) : ℝ :=
  stepXe hFun i h0 - stepDx hFun i h0

/-- stepX2: local x2 = xe + dx (line 258). -/
def stepX2 (hFun : ℕ → ℝ) (i : ℕ) (h0 : ℝ) : ℝ :=
  stepXe hFun i h0 + stepDx hFun i h0

/-- stepRoots: local roots after the two counting ifs of lines 259-260. -/
def stepRoots (hFun : ℕ → ℝ) (i : ℕ) (h0 : ℝ) : ℕ :=
  (if |stepX1 hFun i h0| ≤ 1 then 1 else 0) + (if |stepX2 hFun i h0| ≤ 1 then 1 else 0)

/-- stepX1s: the value of x1 after `if x1 < -1: x1 = x2` (line 261). -/
def stepX1s (hFun : ℕ → ℝ) (i : ℕ) (h0 : ℝ) : ℝ :=
  if stepX1 hFun i h0 < -1 then stepX2 hFun i h0 else stepX1 hFun i h0

/-- windowStep: the body of one 2-hour window of the scan loop of
get_moon_times (lines 245-269), acting on the surviving state.  The
h0 carry-over of line 273 is performed by runWindows because in the
source it happens only when the loop continues. -/
def windowStep (hFun : ℕ → ℝ) (i : ℕ) (s : LoopState) : Except PyErr LoopState :=
  if stepA hFun i s.h0 = 0 then .error .zeroDivision
  else if 0 ≤ stepD hFun i s.h0 then
    if stepRoots hFun i s.h0 = 1 then
      if s.h0 < 0 then
        .ok { s with ye := stepYe hFun i s.h0, rise := i + stepX1s hFun i s.h0 }
      else
        .ok { s with ye := stepYe hFun i s.h0, set := i + stepX1s hFun i s.h0 }
    else if stepRoots hFun i s.h0 = 2 then
      .ok { s with ye := stepYe hFun i s.h0, rise := i + (if stepYe hFun i s.h0 < 0 then stepX2 hFun i s.h0 else stepX1s hFun i s.h0), set := i + (if stepYe hFun i s.h0 < 0 then stepX1s hFun i s.h0 else stepX2 hFun i s.h0) }
    else .ok { s with ye := stepYe hFun i s.h0 }
  else .ok { s with ye := stepYe hFun i s.h0 }

/-- runWindows: the scan loop of get_moon_times over the remaining
window indices, with the early break `if rise and set: break`
(line 271, Python truthiness: a float is truthy iff nonzero) and the
carry `h0 = h2` (line 273). -/
def runWindows (hFun : ℕ → ℝ) : List ℕ → LoopState → Except PyErr LoopState
  | [], s => .ok s
  | i :: rest, s =>
    match windowStep hFun i s with
    | .error e => .error e
    | .ok s' =>
      if s'.rise ≠ 0 ∧ s'.set ≠ 0 then .ok s'
      else runWindows hFun rest { s' with h0 := hFun (i + 1) }

/-- windowIndices: the window start hours `[2*i + 1 for i in range(12)]`
(line 244). -/
def windowIndices : List ℕ := (List.range 12).map (fun k => 2 * k + 1)

/-- bitandFloat: Python `x & y` where the right operand is a float.
Both `int & float` and `float & float` raise TypeError; at line 277
the right operand ye is always a float, because ye is reassigned from
float arithmetic in every loop iteration and at least one iteration
runs before the return. -/
def bitandFloat (_x _y : ℝ) : Except PyErr ℝ := .error .typeError

/-- alwaysupExpr: the expression `not rise and not set & ye > 0`
(line 277).  Under Python precedence it is
`(not rise) and (not ((set & ye) > 0))`: when rise is truthy the
`and` short-circuits to False, otherwise `set & ye` is evaluated and
raises TypeError because ye is a float. -/
def alwaysupExpr (rise set ye : ℝ) : Except PyErr Bool :=
  if rise = 0 then
    match bitandFloat set ye with
    | .error e => .error e
    | .ok v => .ok (decide (¬ v > 0))
  else .ok false

/-- alwaysdownExpr: the expression `not rise and not set and ye <= 0`
(line 278), a plain short-circuit conjunction. -/
def alwaysdownExpr (rise set ye : ℝ) : Bool :=
  if rise = 0 then (if set = 0 then decide (ye ≤ 0) else false) else false

/-- finishTimes: the return statement of get_moon_times (lines 275-278)
applied to the loop outcome.  The rise/set fields use Python
truthiness (`hours_later(t, rise) if rise else -1`); the third tuple
argument is alwaysupExpr, whose evaluation raises TypeError whenever
rise is falsy. -/
def finishTimes (t : ℝ) (r : Except PyErr LoopState) : Except PyErr MoonTimesStruct :=
  match r with
  | .error e => .error e
  | .ok s =>
    match alwaysupExpr s.rise s.set s.ye with
    | .error e => .error e
    | .ok au =>
      .ok ⟨if s.rise ≠ 0 then hours_later t s.rise else -1,
           if s.set ≠ 0 then hours_later t s.set else -1,
           au,
           alwaysdownExpr s.rise s.set s.ye⟩

/-- get_moon_times_result: the whole of get_moon_times after the local
midnight t has been computed, factored over the altitude profile hFun
(the sampled corrected altitudes h(i) = altitude at t + i hours minus
hc).  The initial state is h0 = hFun 0, rise = set = ye = 0 (line 240). -/
def get_moon_times_result (hFun : ℕ → ℝ) (t : ℝ) : Except PyErr MoonTimesStruct :=
  finishTimes t (runWindows hFun windowIndices ⟨hFun 0, 0, 0, 0⟩)

/-- altProfile: the altitude samples used by get_moon_times (lines 239,
245-246): corrected altitude at t + i hours. -/
def altProfile (t lat lng : ℝ) (i : ℕ) : ℝ :=
  (get_moon_position (hours_later t i) lat lng).altitude - hc

/-- get_moon_times (line 227).  The normalisation of the input date to
local midnight (lines 233-236) uses the calendar collaborator
time.localtime/time.mktime/time.timezone, which is out of scope; the
parameter t is the already-normalised midnight. -/
def get_moon_times (t lat lng : ℝ) : Except PyErr MoonTimesStruct :=
  get_moon_times_result (altProfile t lat lng) t

/-- pBelow: a concrete altitude profile with the moon below the
corrected horizon all day (a polar-night style day): -3 at even hours,
-1 at odd hours.  Every window has a = -2 and d = -8 < 0, so the scan
finds no crossing. -/
def pBelow (i : ℕ) : ℝ := if i % 2 = 0 then -3 else -1

/-- qRise: a concrete altitude profile whose first window fits the
parabola -(x - 0.5) * (x - 3) through (-6, -1.5, 1): a single in-range
root x = 0.5 with h0 < 0, recorded as a rise at hour offset 1.5.  All
later windows have d < 0, so the scan ends with rise = 1.5, set = 0. -/
def qRise (i : ℕ) : ℝ :=
  if i = 0 then -6
  else if i = 1 then -1.5
  else if i = 2 then 1
  else if i = 3 then 1
  else if i % 2 = 0 then 3 else 1

/-- qZero: a concrete altitude profile whose first window fits the
parabola -x * (x + 1) through (0, 0, -2): two in-range roots x1 = -1
and x2 = 0 with ye = 0.25 >= 0, so rise = 1 + x1 = 0 (a horizon
crossing at hour offset exactly 0) and set = 1 + x2 = 1.  All later
windows have d < 0. -/
def qZero (i : ℕ) : ℝ :=
  if i = 0 then 0
  else if i = 1 then 0
  else if i = 2 then -2
  else if i = 3 then -1
  else if i % 2 = 0 then -3 else -1

end

/-- C4: for every epoch-seconds value t, composing to_julian with
from_julian reproduces the calendar rendering of exactly t (the
external calendar collaborator time.localtime receives precisely t),
and conversely to_julian inverts the numeric core of from_julian
exactly: the two conversions are exact algebraic inverses. -/
theorem c4_julian_round_trip {α : Type} (localtime : ℝ → α) (t j : ℝ) :
    from_julian localtime (to_julian t) = localtime t ∧
    to_julian (from_julian_seconds j) = j := by
  constructor
  · show localtime (from_julian_seconds (to_julian t)) = localtime t
    congr 1
    unfold from_julian_seconds to_julian DAYS_SEC J1970
    ring
  · unfold from_julian_seconds to_julian DAYS_SEC J1970
    ring

/-- C5: for every real number d of fractional days since J2000, the
distance field of moon_coords d lies in [356500, 406700] km (in fact
in [364096, 405906]). -/
theorem c5_moon_distance_range (d : ℝ) :
    356500 ≤ (moon_coords d).dist ∧ (moon_coords d).dist ≤ 406700 := by
  have hdist : (moon_coords d).dist
      = 385001 - 20905 * Real.cos (RAD * (134.963 + 13.064993 * d)) := rfl
  have h1 := Real.neg_one_le_cos (RAD * (134.963 + 13.064993 * d))
  have h2 := Real.cos_le_one (RAD * (134.963 + 13.064993 * d))
  rw [hdist]
  constructor <;> nlinarith

/-- C8: for every altitude h < 0, astro_refraction h equals
astro_refraction 0 (the input is clamped to 0 before the formula is
evaluated), and for every input the clamped inner denominator
h + 0.08901179 is strictly positive, so the inner division near the
singular point h = -0.08901179 is never reached. -/
theorem c8_refraction_clamp (h : ℝ) (hneg : h < 0) :
    astro_refraction h = astro_refraction 0 ∧
    ∀ x : ℝ, 0 < (if x < 0 then (0:ℝ) else x) + 0.08901179 := by
  constructor
  · unfold astro_refraction
    rw [if_pos hneg, if_neg (lt_irrefl (0:ℝ))]
  · intro x
    by_cases hx : x < 0
    · rw [if_pos hx]; norm_num
    · rw [if_neg hx]
      push_neg at hx
      linarith

/-- Witness for C8 at the concrete input h = -1. -/
theorem c8_refraction_clamp_witness :
    ((-1 : ℝ) < 0) ∧
    (astro_refraction (-1) = astro_refraction 0 ∧
      ∀ x : ℝ, 0 < (if x < 0 then (0:ℝ) else x) + 0.08901179) :=
  ⟨by norm_num, c8_refraction_clamp (-1) (by norm_num)⟩

/-- Bounds for the two-argument arctangent: atan2 always lands in
(-pi, pi]. -/
theorem atan2_mem_Ioc (y x : ℝ) : -Real.pi < atan2 y x ∧ atan2 y x ≤ Real.pi :=
  ⟨Complex.neg_pi_lt_arg _, Complex.arg_le_pi _⟩

/-- C9: get_moon_illumination returns fraction = (1 + cos inc)/2 and
phase = 0.5 + 0.5*inc*sign(angle)/pi (sign as in the source:
-1 when angle < 0, else 1), with inc and angle the phase-geometry
angles computed from the simultaneous solar and lunar coordinates,
and both fraction and phase lie in [0, 1]. -/
theorem c9_illumination_formulas_and_bounds (date : ℝ) :
    (get_moon_illumination date).fraction = (1 + Real.cos (illumInc date)) / 2 ∧
    (get_moon_illumination date).phase =
      0.5 + 0.5 * illumInc date * (if illumAngle date < 0 then -1 else 1) / Real.pi ∧
    0 ≤ (get_moon_illumination date).fraction ∧
    (get_moon_illumination date).fraction ≤ 1 ∧
    0 ≤ (get_moon_illumination date).phase ∧
    (get_moon_illumination date).phase ≤ 1 := by
  have hfrac : (get_moon_illumination date).fraction
      = (1 + Real.cos (illumInc date)) / 2 := rfl
  have hphase : (get_moon_illumination date).phase
      = 0.5 + 0.5 * illumInc date * (if illumAngle date < 0 then -1 else 1) / Real.pi := rfl
  have hc1 := Real.neg_one_le_cos (illumInc date)
  have hc2 := Real.cos_le_one (illumInc date)
  have hpi := Real.pi_pos
  have hlo : -Real.pi < illumInc date := (atan2_mem_Ioc _ _).1
  have hhi : illumInc date ≤ Real.pi := (atan2_mem_Ioc _ _).2
  have hq1 : illumInc date / Real.pi ≤ 1 := (div_le_one hpi).mpr hhi
  have hq2 : -1 ≤ illumInc date / Real.pi := by
    rw [le_div_iff hpi]
    linarith
  refine ⟨hfrac, hphase, ?_, ?_, ?_, ?_⟩
  · rw [hfrac]; linarith
  · rw [hfrac]; linarith
  · rw [hphase]
    by_cases ha : illumAngle date < 0
    · rw [if_pos ha]
      have : 0.5 + 0.5 * illumInc date * (-1) / Real.pi
          = 0.5 - 0.5 * (illumInc date / Real.pi) := by ring
      rw [this]; linarith
    · rw [if_neg ha]
      have : 0.5 + 0.5 * illumInc date * 1 / Real.pi
          = 0.5 + 0.5 * (illumInc date / Real.pi) := by ring
      rw [this]; linarith
  · rw [hphase]
    by_cases ha : illumAngle date < 0
    · rw [if_pos ha]
      have : 0.5 + 0.5 * illumInc date * (-1) / Real.pi
          = 0.5 - 0.5 * (illumInc date / Real.pi) := by ring
      rw [this]; linarith
    · rw [if_neg ha]
      have : 0.5 + 0.5 * illumInc date * 1 / Real.pi
          = 0.5 + 0.5 * (illumInc date / Real.pi) := by ring
      rw [this]; linarith

/-- C7 counterexample: astro_refraction is not strictly decreasing on
the whole non-negative axis.  At h = 3 the shifted tangent argument
lies in (pi/2, pi) so the value is negative, while at h = 4 the
argument lies in (pi, 3pi/2) so the value is positive: the claim
demands astro_refraction 3 > astro_refraction 4, but the opposite
strict inequality holds. -/
theorem c7_refraction_not_strictly_decreasing :
    astro_refraction 3 < astro_refraction 4 := by
  have hpi1 : (3.141592 : ℝ) < Real.pi := Real.pi_gt_3141592
  have hpi2 : Real.pi < 3.15 := Real.pi_lt_315
  have e3 : astro_refraction 3
      = 0.0002967 / Real.tan (3 + 0.00312536 / (3 + 0.08901179)) := by
    unfold astro_refraction
    rw [if_neg (by norm_num : ¬ (3:ℝ) < 0)]
  have e4 : astro_refraction 4
      = 0.0002967 / Real.tan (4 + 0.00312536 / (4 + 0.08901179)) := by
    unfold astro_refraction
    rw [if_neg (by norm_num : ¬ (4:ℝ) < 0)]
  have hfrac3 : (0:ℝ) < 0.00312536 / (3 + 0.08901179) := by positivity
  have hfrac4 : (0:ℝ) < 0.00312536 / (4 + 0.08901179) := by positivity
  have ht3b : (3:ℝ) + 0.00312536 / (3 + 0.08901179) < Real.pi := by
    have : (3:ℝ) + 0.00312536 / (3 + 0.08901179) < 3.141592 := by norm_num
    linarith
  have ht3a : Real.pi / 2 < (3:ℝ) + 0.00312536 / (3 + 0.08901179) := by linarith
  have hsin3 : 0 < Real.sin (3 + 0.00312536 / (3 + 0.08901179)) :=
    Real.sin_pos_of_pos_of_lt_pi (by linarith) ht3b
  have hcos3 : Real.cos (3 + 0.00312536 / (3 + 0.08901179)) < 0 :=
    Real.cos_neg_of_pi_div_two_lt_of_lt ht3a (by linarith)
  have htan3 : Real.tan (3 + 0.00312536 / (3 + 0.08901179)) < 0 := by
    rw [Real.tan_eq_sin_div_cos]
    exact div_neg_of_pos_of_neg hsin3 hcos3
  have hf3 : astro_refraction 3 < 0 := by
    rw [e3]
    exact div_neg_of_pos_of_neg (by norm_num) htan3
  have ht4small : (4:ℝ) + 0.00312536 / (4 + 0.08901179) < 4.001 := by norm_num
  have ht4a : Real.pi < (4:ℝ) + 0.00312536 / (4 + 0.08901179) := by linarith
  have ht4b : (4:ℝ) + 0.00312536 / (4 + 0.08901179) < Real.pi + Real.pi / 2 := by
    linarith
  have hcos4 : Real.cos (4 + 0.00312536 / (4 + 0.08901179)) < 0 :=
    Real.cos_neg_of_pi_div_two_lt_of_lt (by linarith) ht4b
  have hshift : Real.sin ((4 + 0.00312536 / (4 + 0.08901179)) - 2 * Real.pi)
      = Real.sin (4 + 0.00312536 / (4 + 0.08901179)) :=
    Real.sin_periodic.sub_eq _
  have hsin4 : Real.sin (4 + 0.00312536 / (4 + 0.08901179)) < 0 := by
    rw [← hshift]
    exact Real.sin_neg_of_neg_of_neg_pi_lt (by linarith) (by linarith)
  have htan4 : 0 < Real.tan (4 + 0.00312536 / (4 + 0.08901179)) := by
    rw [Real.tan_eq_sin_div_cos]
    rw [show Real.sin (4 + 0.00312536 / (4 + 0.08901179))
          / Real.cos (4 + 0.00312536 / (4 + 0.08901179))
        = (-Real.sin (4 + 0.00312536 / (4 + 0.08901179)))
          / (-Real.cos (4 + 0.00312536 / (4 + 0.08901179))) by ring]
    exact div_pos (by linarith) (by linarith)
  have hf4 : 0 < astro_refraction 4 := by
    rw [e4]
    exact div_pos (by norm_num) htan4
  linarith

/-- C7 amended: astro_refraction is strictly decreasing for altitudes
0 <= h1 < h2 <= 3 (a range covering every physical altitude, which is
at most pi/2); the claim fails only for unphysical arguments beyond
roughly 3.14 where the tangent argument wraps past pi. -/
theorem c7_refraction_strict_anti_on_0_3 (h1 h2 : ℝ)
    (hl : 0 ≤ h1) (hlt : h1 < h2) (hub : h2 ≤ 3) :
    astro_refraction h2 < astro_refraction h1 := by
  have hpi1 : (3.141592 : ℝ) < Real.pi := Real.pi_gt_3141592
  have hd1 : (0:ℝ) < h1 + 0.08901179 := by linarith
  have hd2 : (0:ℝ) < h2 + 0.08901179 := by linarith
  have hg1pos : 0 < h1 + 0.00312536 / (h1 + 0.08901179) := by positivity
  have hmono : h1 + 0.00312536 / (h1 + 0.08901179)
      < h2 + 0.00312536 / (h2 + 0.08901179) := by
    have key : (h2 + 0.00312536 / (h2 + 0.08901179))
        - (h1 + 0.00312536 / (h1 + 0.08901179))
        = (h2 - h1) * ((h1 + 0.08901179) * (h2 + 0.08901179) - 0.00312536)
          / ((h1 + 0.08901179) * (h2 + 0.08901179)) := by
      field_simp
      ring
    have hprod : (0.00312536 : ℝ) < (h1 + 0.08901179) * (h2 + 0.08901179) := by
      nlinarith
    have : 0 < (h2 + 0.00312536 / (h2 + 0.08901179))
        - (h1 + 0.00312536 / (h1 + 0.08901179)) := by
      rw [key]
      exact div_pos (mul_pos (by linarith) (by linarith)) (mul_pos hd1 hd2)
    linarith
  have hb2 : 0.00312536 / (h2 + 0.08901179) ≤ 0.036 := by
    rw [div_le_iff hd2]
    nlinarith
  have hg2lt : h2 + 0.00312536 / (h2 + 0.08901179) < Real.pi := by linarith
  have hsin1 : 0 < Real.sin (h1 + 0.00312536 / (h1 + 0.08901179)) :=
    Real.sin_pos_of_pos_of_lt_pi hg1pos (lt_trans hmono hg2lt)
  have hsin2 : 0 < Real.sin (h2 + 0.00312536 / (h2 + 0.08901179)) :=
    Real.sin_pos_of_pos_of_lt_pi (by linarith) hg2lt
  have hdiff : 0 < Real.sin ((h2 + 0.00312536 / (h2 + 0.08901179))
      - (h1 + 0.00312536 / (h1 + 0.08901179))) :=
    Real.sin_pos_of_pos_of_lt_pi (by linarith) (by linarith)
  have hsub := Real.sin_sub (h2 + 0.00312536 / (h2 + 0.08901179))
      (h1 + 0.00312536 / (h1 + 0.08901179))
  have hcot : Real.cos (h2 + 0.00312536 / (h2 + 0.08901179))
        / Real.sin (h2 + 0.00312536 / (h2 + 0.08901179))
      < Real.cos (h1 + 0.00312536 / (h1 + 0.08901179))
        / Real.sin (h1 + 0.00312536 / (h1 + 0.08901179)) := by
    rw [div_lt_div_iff hsin2 hsin1]
    nlinarith
  have e1tan : astro_refraction h1
      = 0.0002967 / Real.tan (h1 + 0.00312536 / (h1 + 0.08901179)) := by
    unfold astro_refraction
    rw [if_neg (not_lt.mpr hl)]
  have e2tan : astro_refraction h2
      = 0.0002967 / Real.tan (h2 + 0.00312536 / (h2 + 0.08901179)) := by
    unfold astro_refraction
    rw [if_neg (not_lt.mpr (by linarith : (0:ℝ) ≤ h2))]
  have e1 : astro_refraction h1
      = 0.0002967 * (Real.cos (h1 + 0.00312536 / (h1 + 0.08901179))
          / Real.sin (h1 + 0.00312536 / (h1 + 0.08901179))) := by
    rw [e1tan, Real.tan_eq_sin_div_cos, div_eq_mul_inv, inv_div]
  have e2 : astro_refraction h2
      = 0.0002967 * (Real.cos (h2 + 0.00312536 / (h2 + 0.08901179))
          / Real.sin (h2 + 0.00312536 / (h2 + 0.08901179))) := by
    rw [e2tan, Real.tan_eq_sin_div_cos, div_eq_mul_inv, inv_div]
  rw [e1, e2]
  exact mul_lt_mul_of_pos_left hcot (by norm_num)

/-- Witness for the amended C7 at the concrete inputs h1 = 0, h2 = 1. -/
theorem c7_refraction_strict_anti_witness :
    (0:ℝ) ≤ 0 ∧ (0:ℝ) < 1 ∧ (1:ℝ) ≤ 3 ∧ astro_refraction 1 < astro_refraction 0 :=
  ⟨le_refl 0, by norm_num, by norm_num,
    c7_refraction_strict_anti_on_0_3 0 1 (le_refl 0) (by norm_num) (by norm_num)⟩

/-- windowIndices evaluates to the twelve odd hours 1, 3, ..., 23. -/
theorem windowIndices_eq :
    windowIndices = [1, 3, 5, 7, 9, 11, 13, 15, 17, 19, 21, 23] := rfl

/-- stepDx is non-negative (a square root divided by a non-negative
quantity). -/
theorem stepDx_nonneg (hFun : ℕ → ℝ) (i : ℕ) (h0 : ℝ) :
    0 ≤ stepDx hFun i h0 :=
  div_nonneg (Real.sqrt_nonneg _) (by positivity)

/-- The candidate roots are ordered: x1 ≤ x2. -/
theorem stepX1_le_stepX2 (hFun : ℕ → ℝ) (i : ℕ) (h0 : ℝ) :
    stepX1 hFun i h0 ≤ stepX2 hFun i h0 := by
  have := stepDx_nonneg hFun i h0
  unfold stepX1 stepX2
  linarith

/-- When the root counter is 1, exactly one of x1, x2 is in range and
the swapped variable x1s holds that root. -/
theorem stepRoots_one_cases (hFun : ℕ → ℝ) (i : ℕ) (h0 : ℝ)
    (hr : stepRoots hFun i h0 = 1) :
    (|stepX1 hFun i h0| ≤ 1 ∧ ¬ |stepX2 hFun i h0| ≤ 1 ∧
      stepX1s hFun i h0 = stepX1 hFun i h0) ∨
    (¬ |stepX1 hFun i h0| ≤ 1 ∧ |stepX2 hFun i h0| ≤ 1 ∧
      stepX1s hFun i h0 = stepX2 hFun i h0) := by
  by_cases h1 : |stepX1 hFun i h0| ≤ 1 <;> by_cases h2 : |stepX2 hFun i h0| ≤ 1
  · exfalso
    unfold stepRoots at hr
    rw [if_pos h1, if_pos h2] at hr
    exact absurd hr (by norm_num)
  · left
    refine ⟨h1, h2, ?_⟩
    unfold stepX1s
    exact if_neg (not_lt.mpr (abs_le.mp h1).1)
  · right
    refine ⟨h1, h2, ?_⟩
    unfold stepX1s
    have hle := stepX1_le_stepX2 hFun i h0
    rcases lt_or_le (stepX1 hFun i h0) (-1) with hx | hx
    · exact if_pos hx
    · exfalso
      apply h1
      rw [abs_le]
      exact ⟨neg_le_of_neg_le (by linarith [hx]), le_trans hle (abs_le.mp h2).2⟩
  · exfalso
    unfold stepRoots at hr
    rw [if_neg h1, if_neg h2] at hr
    exact absurd hr (by norm_num)

/-- When the root counter is 2, both roots are in range and the swap
of line 261 does not fire. -/
theorem stepRoots_two_both (hFun : ℕ → ℝ) (i : ℕ) (h0 : ℝ)
    (hr : stepRoots hFun i h0 = 2) :
    |stepX1 hFun i h0| ≤ 1 ∧ |stepX2 hFun i h0| ≤ 1 ∧
      stepX1s hFun i h0 = stepX1 hFun i h0 := by
  by_cases h1 : |stepX1 hFun i h0| ≤ 1 <;> by_cases h2 : |stepX2 hFun i h0| ≤ 1
  · refine ⟨h1, h2, ?_⟩
    unfold stepX1s
    exact if_neg (not_lt.mpr (abs_le.mp h1).1)
  all_goals
    exfalso
    unfold stepRoots at hr
    first
      | rw [if_pos h1, if_neg h2] at hr
      | rw [if_neg h1, if_pos h2] at hr
      | rw [if_neg h1, if_neg h2] at hr
    exact absurd hr (by norm_num)

/-- A window whose discriminant is negative only updates ye. -/
theorem windowStep_noroot (hFun : ℕ → ℝ) (i : ℕ) (s : LoopState)
    (ha : stepA hFun i s.h0 ≠ 0) (hd : stepD hFun i s.h0 < 0) :
    windowStep hFun i s = .ok { s with ye := stepYe hFun i s.h0 } := by
  unfold windowStep
  rw [if_neg ha, if_neg (not_le.mpr hd)]

/-- Running a list of windows that all have negative discriminants (and
whose upper samples keep reproducing the carried altitude) leaves the
rise/set state untouched; only ye changes. -/
theorem runWindows_noroot (hFun : ℕ → ℝ) (l : List ℕ) :
    ∀ s : LoopState, ¬(s.rise ≠ 0 ∧ s.set ≠ 0) →
    (∀ i ∈ l, hFun (i + 1) = s.h0 ∧ stepA hFun i s.h0 ≠ 0 ∧ stepD hFun i s.h0 < 0) →
    ∃ y, runWindows hFun l s = .ok ⟨s.h0, s.rise, s.set, y⟩ := by
  induction l with
  | nil =>
    intro s _ _
    exact ⟨s.ye, rfl⟩
  | cons i rest ih =>
    intro s hnb hst
    obtain ⟨hif, ha, hd⟩ := hst i (List.mem_cons_self i rest)
    have hcond : ¬((LoopState.mk s.h0 s.rise s.set (stepYe hFun i s.h0)).rise ≠ 0 ∧
        (LoopState.mk s.h0 s.rise s.set (stepYe hFun i s.h0)).set ≠ 0) := hnb
    obtain ⟨y, hy⟩ := ih (LoopState.mk s.h0 s.rise s.set (stepYe hFun i s.h0))
      hnb (fun j hj => hst j (List.mem_cons_of_mem i hj))
    refine ⟨y, ?_⟩
    rw [runWindows, windowStep_noroot hFun i s ha hd]
    show (if (LoopState.mk s.h0 s.rise s.set (stepYe hFun i s.h0)).rise ≠ 0 ∧
        (LoopState.mk s.h0 s.rise s.set (stepYe hFun i s.h0)).set ≠ 0 then _ else _) = _
    rw [if_neg hcond, hif]
    exact hy

/-- On the all-below-horizon profile every window keeps the carried
altitude at -3, has a = -2 and discriminant d = -8 < 0. -/
theorem pBelow_noroot_facts :
    ∀ i ∈ windowIndices,
      pBelow (i + 1) = (-3 : ℝ) ∧ stepA pBelow i (-3) ≠ 0 ∧ stepD pBelow i (-3) < 0 := by
  intro i hi
  rw [windowIndices_eq] at hi
  fin_cases hi <;>
    norm_num [pBelow, stepA, stepB, stepD]

/-- C1: on a day whose scan finds no horizon crossing, get_moon_times
does not return a MoonTimes classified by the sign of ye at all: the
classification expression of line 277 raises TypeError (rise is falsy,
so `set & ye` is evaluated on a float).  Evaluated here on the
concrete all-below-horizon profile pBelow, where every window has
d < 0 and the loop ends with rise = set = 0. -/
theorem c1_no_crossing_raises_type_error :
    get_moon_times_result pBelow 0 = .error .typeError := by
  obtain ⟨y, hy⟩ := runWindows_noroot pBelow windowIndices
    (LoopState.mk (-3) 0 0 0) (by simp) pBelow_noroot_facts
  unfold get_moon_times_result
  rw [show (⟨pBelow 0, 0, 0, 0⟩ : LoopState) = LoopState.mk (-3) 0 0 0 by
    norm_num [pBelow]]
  rw [hy]
  unfold finishTimes alwaysupExpr bitandFloat
  norm_num

/-- C2: get_moon_times is not total.  On the constant altitude profile
(three exactly collinear samples in the first window) the division
xe = -b / (2 * a) of line 250 raises ZeroDivisionError. -/
theorem c2_not_total_zero_division :
    get_moon_times_result (fun _ => (-1 : ℝ)) 0 = .error .zeroDivision := by
  have ha : stepA (fun _ => (-1 : ℝ)) 1 (-1) = 0 := by norm_num [stepA]
  unfold get_moon_times_result
  rw [windowIndices_eq]
  rw [runWindows]
  rw [show windowStep (fun _ => (-1 : ℝ)) 1 ⟨(fun _ => (-1:ℝ)) 0, 0, 0, 0⟩
      = .error .zeroDivision by unfold windowStep; rw [if_pos ha]]
  rfl

/-- Whenever the return statement of get_moon_times succeeds, both
classification flags are false: alwaysupExpr can only return False
(when rise is truthy it short-circuits, otherwise it raises), and
alwaysdownExpr short-circuits on the same truthy rise. -/
theorem finishTimes_ok_flags (t : ℝ) (r : Except PyErr LoopState) (mt : MoonTimesStruct)
    (h : finishTimes t r = .ok mt) :
    mt.alwaysup = false ∧ mt.alwaysdown = false := by
  cases r with
  | error e => exact Except.noConfusion h
  | ok s =>
    have h' : (match alwaysupExpr s.rise s.set s.ye with
      | Except.error e => (Except.error e : Except PyErr MoonTimesStruct)
      | Except.ok au => Except.ok ⟨if s.rise ≠ 0 then hours_later t s.rise else -1, if s.set ≠ 0 then hours_later t s.set else -1, au, alwaysdownExpr s.rise s.set s.ye⟩) = Except.ok mt := h
    by_cases hr : s.rise = 0
    · exfalso
      rw [show alwaysupExpr s.rise s.set s.ye = .error .typeError from by
        unfold alwaysupExpr bitandFloat; rw [if_pos hr]] at h'
      exact Except.noConfusion h'
    · rw [show alwaysupExpr s.rise s.set s.ye = .ok false from by
        unfold alwaysupExpr; rw [if_neg hr]] at h'
      simp only [Except.ok.injEq] at h'
      rw [← h']
      refine ⟨rfl, ?_⟩
      show alwaysdownExpr s.rise s.set s.ye = false
      unfold alwaysdownExpr
      rw [if_neg hr]

/-- C3: on every input on which get_moon_times returns, the result
never has alwaysup and alwaysdown both true, and neither flag is true
when a rise or a set timestamp is present.  Stated over the scan core
get_moon_times_result for an arbitrary altitude profile, which covers
every timestamp/latitude/longitude input of get_moon_times. -/
theorem c3_flags_mutually_exclusive (hFun : ℕ → ℝ) (t : ℝ) (mt : MoonTimesStruct)
    (h : get_moon_times_result hFun t = .ok mt) :
    ¬(mt.alwaysup = true ∧ mt.alwaysdown = true) ∧
    ((mt.rise ≠ -1 ∨ mt.set ≠ -1) → mt.alwaysup = false ∧ mt.alwaysdown = false) := by
  have key := finishTimes_ok_flags t (runWindows hFun windowIndices ⟨hFun 0, 0, 0, 0⟩) mt h
  constructor
  · intro hb
    rw [key.1] at hb
    exact absurd hb.1 (by simp)
  · exact fun _ => key

/-- C6: case analysis of a 2-hour window whose discriminant is
non-negative (and whose parabola is a genuine quadratic, a different
from 0, since otherwise line 250 raises ZeroDivisionError before the
case analysis is reached).  With exactly one in-range root, that root
is recorded as a rise when the carried altitude h0 is below the
corrected horizon and as a set otherwise; with two in-range roots,
the roots are ordered x1 ≤ x2 and the rise takes the later root x2
exactly when the vertex value ye is negative, the set the other. -/
theorem c6_window_case_analysis (hFun : ℕ → ℝ) (i : ℕ) (s : LoopState)
    (ha : stepA hFun i s.h0 ≠ 0) (hd : 0 ≤ stepD hFun i s.h0) :
    (stepRoots hFun i s.h0 = 1 →
      ∃ r, |r| ≤ 1 ∧ (r = stepX1 hFun i s.h0 ∨ r = stepX2 hFun i s.h0) ∧
        windowStep hFun i s =
          .ok (if s.h0 < 0 then { s with ye := stepYe hFun i s.h0, rise := i + r }
               else { s with ye := stepYe hFun i s.h0, set := i + r })) ∧
    (stepRoots hFun i s.h0 = 2 →
      stepX1 hFun i s.h0 ≤ stepX2 hFun i s.h0 ∧
        windowStep hFun i s =
          .ok { s with ye := stepYe hFun i s.h0, rise := i + (if stepYe hFun i s.h0 < 0 then stepX2 hFun i s.h0 else stepX1 hFun i s.h0), set := i + (if stepYe hFun i s.h0 < 0 then stepX1 hFun i s.h0 else stepX2 hFun i s.h0) }) := by
  constructor
  · intro hr
    have hstep : windowStep hFun i s =
        if s.h0 < 0 then
          .ok { s with ye := stepYe hFun i s.h0, rise := i + stepX1s hFun i s.h0 }
        else
          .ok { s with ye := stepYe hFun i s.h0, set := i + stepX1s hFun i s.h0 } := by
      unfold windowStep
      rw [if_neg ha, if_pos hd, if_pos hr]
    rcases stepRoots_one_cases hFun i s.h0 hr with ⟨h1, _, hs⟩ | ⟨_, h2, hs⟩
    · refine ⟨stepX1 hFun i s.h0, h1, Or.inl rfl, ?_⟩
      rw [hstep, hs]
      by_cases hh : s.h0 < 0
      · rw [if_pos hh, if_pos hh]
      · rw [if_neg hh, if_neg hh]
    · refine ⟨stepX2 hFun i s.h0, h2, Or.inr rfl, ?_⟩
      rw [hstep, hs]
      by_cases hh : s.h0 < 0
      · rw [if_pos hh, if_pos hh]
      · rw [if_neg hh, if_neg hh]
  · intro hr
    obtain ⟨h1, _, hs⟩ := stepRoots_two_both hFun i s.h0 hr
    refine ⟨stepX1_le_stepX2 hFun i s.h0, ?_⟩
    unfold windowStep
    rw [if_neg ha, if_pos hd, if_neg (by rw [hr]; norm_num), if_pos hr, hs]

/-- A window that succeeds without completing both rise and set makes
the loop continue on the rest of the windows with the carried
altitude updated to the window's upper sample. -/
theorem runWindows_cons_continue (hFun : ℕ → ℝ) (i : ℕ) (rest : List ℕ)
    (s s' : LoopState) (hstep : windowStep hFun i s = .ok s')
    (hnb : ¬(s'.rise ≠ 0 ∧ s'.set ≠ 0)) :
    runWindows hFun (i :: rest) s = runWindows hFun rest { s' with h0 := hFun (i + 1) } := by
  rw [runWindows, hstep]
  show (if s'.rise ≠ 0 ∧ s'.set ≠ 0 then Except.ok s'
      else runWindows hFun rest { s' with h0 := hFun (i + 1) }) = _
  rw [if_neg hnb]

/-- alwaysupExpr short-circuits to False when rise is truthy. -/
theorem alwaysupExpr_truthy (rise set ye : ℝ) (h : rise ≠ 0) :
    alwaysupExpr rise set ye = .ok false := by
  unfold alwaysupExpr
  rw [if_neg h]

/-- alwaysdownExpr short-circuits to False when rise is truthy. -/
theorem alwaysdownExpr_truthy (rise set ye : ℝ) (h : rise ≠ 0) :
    alwaysdownExpr rise set ye = false := by
  unfold alwaysdownExpr
  rw [if_neg h]

/-- The return statement on a loop outcome with truthy rise. -/
theorem finishTimes_ok_truthy_rise (t : ℝ) (s : LoopState) (h : s.rise ≠ 0) :
    finishTimes t (.ok s) =
      .ok ⟨hours_later t s.rise, if s.set ≠ 0 then hours_later t s.set else -1, false, alwaysdownExpr s.rise s.set s.ye⟩ := by
  have h' : finishTimes t (.ok s) = (match alwaysupExpr s.rise s.set s.ye with
      | Except.error e => (Except.error e : Except PyErr MoonTimesStruct)
      | Except.ok au => Except.ok ⟨if s.rise ≠ 0 then hours_later t s.rise else -1, if s.set ≠ 0 then hours_later t s.set else -1, au, alwaysdownExpr s.rise s.set s.ye⟩) := rfl
  rw [h', alwaysupExpr_truthy s.rise s.set s.ye h]
  simp [h]

/-- First window of the qRise profile: one in-range root x1 = 0.5 with
h0 = -6 below the horizon, so rise is set to 1 + 0.5 = 1.5. -/
theorem qRise_window1 :
    windowStep qRise 1 (LoopState.mk (-6) 0 0 0) = .ok (LoopState.mk (-6) 1.5 0 1.5625) := by
  have hA : stepA qRise 1 (-6) = -1 := by norm_num [stepA, qRise]
  have hB : stepB qRise 1 (-6) = 3.5 := by norm_num [stepB, qRise]
  have hXe : stepXe qRise 1 (-6) = 1.75 := by unfold stepXe; rw [hA, hB]; norm_num
  have hYe : stepYe qRise 1 (-6) = 1.5625 := by
    unfold stepYe
    rw [hA, hB, hXe]
    norm_num [qRise]
  have hD : stepD qRise 1 (-6) = 6.25 := by
    unfold stepD
    rw [hA, hB]
    norm_num [qRise]
  have hsq : Real.sqrt 6.25 = 2.5 := by
    rw [show (6.25 : ℝ) = 2.5 ^ 2 by norm_num]
    exact Real.sqrt_sq (by norm_num)
  have hDx : stepDx qRise 1 (-6) = 1.25 := by
    unfold stepDx
    rw [hD, hA, hsq]
    norm_num
  have hX1 : stepX1 qRise 1 (-6) = 0.5 := by
    unfold stepX1
    rw [hXe, hDx]
    norm_num
  have hX2 : stepX2 qRise 1 (-6) = 3 := by
    unfold stepX2
    rw [hXe, hDx]
    norm_num
  have habs1 : |(0.5 : ℝ)| ≤ 1 := by
    rw [abs_le]
    constructor <;> norm_num
  have habs2 : ¬ |(3 : ℝ)| ≤ 1 := by
    rw [abs_le]
    push_neg
    intro
    norm_num
  have hRoots : stepRoots qRise 1 (-6) = 1 := by
    unfold stepRoots
    rw [hX1, hX2, if_pos habs1, if_neg habs2]
  have hX1s : stepX1s qRise 1 (-6) = 0.5 := by
    unfold stepX1s
    rw [hX1, hX2]
    norm_num
  simp only [windowStep]
  rw [hA, hD, hRoots, hYe, hX1s]
  norm_num

/-- Third window of the qRise profile: collinear-free but rootless
(a = 1, d = -3), only ye is updated (to 0.75). -/
theorem qRise_window3 :
    windowStep qRise 3 (LoopState.mk 1 1.5 0 1.5625) = .ok (LoopState.mk 1 1.5 0 0.75) := by
  rw [windowStep_noroot qRise 3 _ (by norm_num [stepA, qRise])
      (by norm_num [stepD, stepB, stepA, qRise])]
  have : stepYe qRise 3 (LoopState.mk 1 1.5 0 1.5625).h0 = 0.75 := by
    norm_num [stepYe, stepXe, stepA, stepB, qRise]
  rw [this]

/-- Windows 5 through 23 of the qRise profile are all rootless with a
constant carried altitude of 3. -/
theorem qRise_tail_facts :
    ∀ i ∈ [5, 7, 9, 11, 13, 15, 17, 19, 21, 23],
      qRise (i + 1) = (3 : ℝ) ∧ stepA qRise i 3 ≠ 0 ∧ stepD qRise i 3 < 0 := by
  intro i hi
  fin_cases hi <;> norm_num [qRise, stepA, stepB, stepD]

/-- The full scan over the qRise profile ends with rise = 1.5 and
set = 0. -/
theorem qRise_loop :
    ∃ y, runWindows qRise windowIndices (LoopState.mk (qRise 0) 0 0 0)
      = .ok (LoopState.mk 3 1.5 0 y) := by
  rw [windowIndices_eq]
  rw [show LoopState.mk (qRise 0) 0 0 0 = LoopState.mk (-6) 0 0 0 by norm_num [qRise]]
  rw [runWindows_cons_continue qRise 1 _ _ _ qRise_window1 (by simp)]
  rw [show ({ LoopState.mk (-6) 1.5 0 1.5625 with h0 := qRise (1 + 1) } : LoopState)
      = LoopState.mk 1 1.5 0 1.5625 by norm_num [qRise]]
  rw [runWindows_cons_continue qRise 3 _ _ _ qRise_window3 (by simp)]
  rw [show ({ LoopState.mk 1 1.5 0 0.75 with h0 := qRise (3 + 1) } : LoopState)
      = LoopState.mk 3 1.5 0 0.75 by norm_num [qRise]]
  obtain ⟨y, hy⟩ := runWindows_noroot qRise [5, 7, 9, 11, 13, 15, 17, 19, 21, 23]
    (LoopState.mk 3 1.5 0 0.75) (by simp) qRise_tail_facts
  exact ⟨y, hy⟩

/-- The qRise profile produces a successful MoonTimes: rise at
midnight + 1.5 h = 5400 s, set absent, both flags False. -/
theorem qRise_run :
    get_moon_times_result qRise 0 = .ok (MoonTimesStruct.mk 5400 (-1) false false) := by
  obtain ⟨y, hy⟩ := qRise_loop
  unfold get_moon_times_result
  rw [hy, finishTimes_ok_truthy_rise 0 (LoopState.mk 3 1.5 0 y) (by norm_num)]
  norm_num [hours_later, alwaysdownExpr_truthy]

/-- The return statement raises TypeError whenever the loop outcome has
a falsy rise: `not rise` is True, so `set & ye` is evaluated and `&`
is undefined on the float ye. -/
theorem finishTimes_rise_zero (t : ℝ) (s : LoopState) (h : s.rise = 0) :
    finishTimes t (.ok s) = .error .typeError := by
  have h' : finishTimes t (.ok s) = (match alwaysupExpr s.rise s.set s.ye with
      | Except.error e => (Except.error e : Except PyErr MoonTimesStruct)
      | Except.ok au => Except.ok ⟨if s.rise ≠ 0 then hours_later t s.rise else -1, if s.set ≠ 0 then hours_later t s.set else -1, au, alwaysdownExpr s.rise s.set s.ye⟩) := rfl
  rw [h', show alwaysupExpr s.rise s.set s.ye = .error .typeError from by
    unfold alwaysupExpr bitandFloat
    rw [if_pos h]]

/-- First-window root x1 of the qZero profile sits exactly at -1. -/
theorem qZero_stepX1_eq : stepX1 qZero 1 0 = -1 := by
  have hA : stepA qZero 1 0 = -1 := by norm_num [stepA, qZero]
  have hB : stepB qZero 1 0 = -1 := by norm_num [stepB, qZero]
  have hXe : stepXe qZero 1 0 = -0.5 := by
    unfold stepXe
    rw [hA, hB]
    norm_num
  have hD : stepD qZero 1 0 = 1 := by
    unfold stepD
    rw [hA, hB]
    norm_num [qZero]
  have hDx : stepDx qZero 1 0 = 0.5 := by
    unfold stepDx
    rw [hD, hA, Real.sqrt_one]
    norm_num
  unfold stepX1
  rw [hXe, hDx]
  norm_num

/-- First-window root x2 of the qZero profile sits at 0. -/
theorem qZero_stepX2_eq : stepX2 qZero 1 0 = 0 := by
  have hA : stepA qZero 1 0 = -1 := by norm_num [stepA, qZero]
  have hB : stepB qZero 1 0 = -1 := by norm_num [stepB, qZero]
  have hXe : stepXe qZero 1 0 = -0.5 := by
    unfold stepXe
    rw [hA, hB]
    norm_num
  have hD : stepD qZero 1 0 = 1 := by
    unfold stepD
    rw [hA, hB]
    norm_num [qZero]
  have hDx : stepDx qZero 1 0 = 0.5 := by
    unfold stepDx
    rw [hD, hA, Real.sqrt_one]
    norm_num
  unfold stepX2
  rw [hXe, hDx]
  norm_num

/-- The qZero first window counts two in-range roots. -/
theorem qZero_stepRoots_eq : stepRoots qZero 1 0 = 2 := by
  have habs1 : |(-1 : ℝ)| ≤ 1 := by
    rw [abs_le]
    constructor <;> norm_num
  have habs2 : |(0 : ℝ)| ≤ 1 := by
    rw [abs_le]
    constructor <;> norm_num
  unfold stepRoots
  rw [qZero_stepX1_eq, qZero_stepX2_eq, if_pos habs1, if_pos habs2]

/-- The qZero first window has vertex value ye = 0.25. -/
theorem qZero_stepYe_eq : stepYe qZero 1 0 = 0.25 := by
  have hA : stepA qZero 1 0 = -1 := by norm_num [stepA, qZero]
  have hB : stepB qZero 1 0 = -1 := by norm_num [stepB, qZero]
  have hXe : stepXe qZero 1 0 = -0.5 := by
    unfold stepXe
    rw [hA, hB]
    norm_num
  unfold stepYe
  rw [hA, hB, hXe]
  norm_num [qZero]

/-- First window of the qZero profile: two in-range roots with
ye = 0.25 >= 0, so rise receives 1 + x1 = 0 (a crossing at offset
exactly 0, indistinguishable from the falsy initial value) and set
receives 1 + x2 = 1. -/
theorem qZero_window1 :
    windowStep qZero 1 (LoopState.mk 0 0 0 0) = .ok (LoopState.mk 0 0 1 0.25) := by
  have hA : stepA qZero 1 0 = -1 := by norm_num [stepA, qZero]
  have hD : stepD qZero 1 0 = 1 := by
    have hB : stepB qZero 1 0 = -1 := by norm_num [stepB, qZero]
    unfold stepD
    rw [hA, hB]
    norm_num [qZero]
  have hX1s : stepX1s qZero 1 0 = -1 := by
    unfold stepX1s
    rw [qZero_stepX1_eq, qZero_stepX2_eq]
    norm_num
  simp only [windowStep]
  rw [hA, hD, qZero_stepRoots_eq, qZero_stepYe_eq, hX1s, qZero_stepX2_eq]
  norm_num

/-- Third window of the qZero profile: rootless, ye becomes -23/24. -/
theorem qZero_window3 :
    windowStep qZero 3 (LoopState.mk (-2) 0 1 0.25) = .ok (LoopState.mk (-2) 0 1 (-23/24)) := by
  rw [windowStep_noroot qZero 3 _ (by norm_num [stepA, qZero])
      (by norm_num [stepD, stepB, stepA, qZero])]
  have : stepYe qZero 3 (LoopState.mk (-2) 0 1 0.25).h0 = -23/24 := by
    norm_num [stepYe, stepXe, stepA, stepB, qZero]
  rw [this]

/-- Windows 5 through 23 of the qZero profile are rootless with a
constant carried altitude of -3. -/
theorem qZero_tail_facts :
    ∀ i ∈ [5, 7, 9, 11, 13, 15, 17, 19, 21, 23],
      qZero (i + 1) = (-3 : ℝ) ∧ stepA qZero i (-3) ≠ 0 ∧ stepD qZero i (-3) < 0 := by
  intro i hi
  fin_cases hi <;> norm_num [qZero, stepA, stepB, stepD]

/-- The full scan over the qZero profile ends with rise = 0 (the
crossing at offset exactly 0) and set = 1. -/
theorem qZero_loop :
    ∃ y, runWindows qZero windowIndices (LoopState.mk (qZero 0) 0 0 0)
      = .ok (LoopState.mk (-3) 0 1 y) := by
  rw [windowIndices_eq]
  rw [show LoopState.mk (qZero 0) 0 0 0 = LoopState.mk 0 0 0 0 by norm_num [qZero]]
  rw [runWindows_cons_continue qZero 1 _ _ _ qZero_window1 (by simp)]
  rw [show ({ LoopState.mk 0 0 1 0.25 with h0 := qZero (1 + 1) } : LoopState)
      = LoopState.mk (-2) 0 1 0.25 by norm_num [qZero]]
  rw [runWindows_cons_continue qZero 3 _ _ _ qZero_window3 (by simp)]
  rw [show ({ LoopState.mk (-2) 0 1 (-23/24) with h0 := qZero (3 + 1) } : LoopState)
      = LoopState.mk (-3) 0 1 (-23/24) by norm_num [qZero]]
  exact runWindows_noroot qZero [5, 7, 9, 11, 13, 15, 17, 19, 21, 23]
    (LoopState.mk (-3) 0 1 (-23/24)) (by simp) qZero_tail_facts

/-- C10 counterexample: on the qZero profile the first window has two
in-range roots (x1 = -1, x2 = 0, counted as 2) with vertex value
ye = 0.25 not below 0, so the rise slot receives the crossing at hour
offset 1 + x1 = 0; that crossing is not reported as the absent
sentinel -1: because the zero offset is falsy, the classification
expression raises TypeError and get_moon_times does not return at
all. -/
theorem c10_rise_offset_zero_raises :
    stepRoots qZero 1 0 = 2 ∧ stepX1 qZero 1 0 = -1 ∧
    (1 : ℝ) + stepX1 qZero 1 0 = 0 ∧ ¬ stepYe qZero 1 0 < 0 ∧
    get_moon_times_result qZero 0 = .error .typeError := by
  refine ⟨qZero_stepRoots_eq, qZero_stepX1_eq, ?_, ?_, ?_⟩
  · rw [qZero_stepX1_eq]
    norm_num
  · rw [qZero_stepYe_eq]
    norm_num
  · obtain ⟨y, hy⟩ := qZero_loop
    unfold get_moon_times_result
    rw [hy, finishTimes_rise_zero 0 (LoopState.mk (-3) 0 1 y) rfl]

/-- Any successful window either leaves rise unchanged or assigns it
i + x for some root x of magnitude at most 1, and likewise for set. -/
theorem windowStep_ok_rise_set (hFun : ℕ → ℝ) (i : ℕ) (s s' : LoopState)
    (h : windowStep hFun i s = .ok s') :
    (s'.rise = s.rise ∨ ∃ x, |x| ≤ 1 ∧ s'.rise = i + x) ∧
    (s'.set = s.set ∨ ∃ x, |x| ≤ 1 ∧ s'.set = i + x) := by
  unfold windowStep at h
  by_cases ha : stepA hFun i s.h0 = 0
  · rw [if_pos ha] at h
    exact Except.noConfusion h
  rw [if_neg ha] at h
  by_cases hd : 0 ≤ stepD hFun i s.h0
  · rw [if_pos hd] at h
    by_cases h1 : stepRoots hFun i s.h0 = 1
    · rw [if_pos h1] at h
      have hx1s : |stepX1s hFun i s.h0| ≤ 1 := by
        rcases stepRoots_one_cases hFun i s.h0 h1 with ⟨ha1, _, hs⟩ | ⟨_, ha2, hs⟩
        · rw [hs]; exact ha1
        · rw [hs]; exact ha2
      by_cases hh : s.h0 < 0
      · rw [if_pos hh] at h
        simp only [Except.ok.injEq] at h
        rw [← h]
        exact ⟨Or.inr ⟨stepX1s hFun i s.h0, hx1s, rfl⟩, Or.inl rfl⟩
      · rw [if_neg hh] at h
        simp only [Except.ok.injEq] at h
        rw [← h]
        exact ⟨Or.inl rfl, Or.inr ⟨stepX1s hFun i s.h0, hx1s, rfl⟩⟩
    · rw [if_neg h1] at h
      by_cases h2 : stepRoots hFun i s.h0 = 2
      · rw [if_pos h2] at h
        obtain ⟨hb1, hb2, hs⟩ := stepRoots_two_both hFun i s.h0 h2
        simp only [Except.ok.injEq] at h
        rw [← h]
        constructor
        · refine Or.inr ⟨if stepYe hFun i s.h0 < 0 then stepX2 hFun i s.h0 else stepX1s hFun i s.h0, ?_, rfl⟩
          by_cases hy : stepYe hFun i s.h0 < 0
          · rw [if_pos hy]; exact hb2
          · rw [if_neg hy, hs]; exact hb1
        · refine Or.inr ⟨if stepYe hFun i s.h0 < 0 then stepX1s hFun i s.h0 else stepX2 hFun i s.h0, ?_, rfl⟩
          by_cases hy : stepYe hFun i s.h0 < 0
          · rw [if_pos hy, hs]; exact hb1
          · rw [if_neg hy]; exact hb2
      · rw [if_neg h2] at h
        simp only [Except.ok.injEq] at h
        rw [← h]
        exact ⟨Or.inl rfl, Or.inl rfl⟩
  · rw [if_neg hd] at h
    simp only [Except.ok.injEq] at h
    rw [← h]
    exact ⟨Or.inl rfl, Or.inl rfl⟩

/-- Over any list of window indices between 1 and 23, the scan keeps
rise and set inside [0, 24] (0 is the unassigned initial value). -/
theorem runWindows_bounds (hFun : ℕ → ℝ) (l : List ℕ) :
    ∀ s s' : LoopState, (∀ i ∈ l, 1 ≤ i ∧ i ≤ 23) →
    (0 ≤ s.rise ∧ s.rise ≤ 24 ∧ 0 ≤ s.set ∧ s.set ≤ 24) →
    runWindows hFun l s = .ok s' →
    0 ≤ s'.rise ∧ s'.rise ≤ 24 ∧ 0 ≤ s'.set ∧ s'.set ≤ 24 := by
  induction l with
  | nil =>
    intro s s' _ hs h
    rw [runWindows] at h
    simp only [Except.ok.injEq] at h
    rw [← h]
    exact hs
  | cons i rest ih =>
    intro s s' hl hs h
    obtain ⟨hi1, hi23⟩ := hl i (List.mem_cons_self i rest)
    have hc1 : (1 : ℝ) ≤ (i : ℝ) := by exact_mod_cast hi1
    have hc23 : (i : ℝ) ≤ 23 := by exact_mod_cast hi23
    rw [runWindows] at h
    cases hw : windowStep hFun i s with
    | error e =>
      rw [hw] at h
      exact Except.noConfusion h
    | ok s1 =>
      rw [hw] at h
      have h' : (if s1.rise ≠ 0 ∧ s1.set ≠ 0 then Except.ok s1
          else runWindows hFun rest { s1 with h0 := hFun (i + 1) }) = .ok s' := h
      have hs1 : 0 ≤ s1.rise ∧ s1.rise ≤ 24 ∧ 0 ≤ s1.set ∧ s1.set ≤ 24 := by
        obtain ⟨hrise, hset⟩ := windowStep_ok_rise_set hFun i s s1 hw
        obtain ⟨hs1a, hs2a, hs3a, hs4a⟩ := hs
        refine ⟨?_, ?_, ?_, ?_⟩
        · rcases hrise with hr | ⟨x, hx, hr⟩
          · rw [hr]; exact hs1a
          · rw [hr]; have := abs_le.mp hx; linarith
        · rcases hrise with hr | ⟨x, hx, hr⟩
          · rw [hr]; exact hs2a
          · rw [hr]; have := abs_le.mp hx; linarith
        · rcases hset with hr | ⟨x, hx, hr⟩
          · rw [hr]; exact hs3a
          · rw [hr]; have := abs_le.mp hx; linarith
        · rcases hset with hr | ⟨x, hx, hr⟩
          · rw [hr]; exact hs4a
          · rw [hr]; have := abs_le.mp hx; linarith
      by_cases hb : s1.rise ≠ 0 ∧ s1.set ≠ 0
      · rw [if_pos hb] at h'
        simp only [Except.ok.injEq] at h'
        rw [← h']
        exact hs1
      · rw [if_neg hb] at h'
        exact ih { s1 with h0 := hFun (i + 1) } s'
          (fun j hj => hl j (List.mem_cons_of_mem i hj)) hs1 h'

/-- C10 amended: whenever get_moon_times returns, each of its rise and
set fields is either the sentinel -1 or a timestamp strictly greater
than the computed local midnight and at most midnight plus 24 hours.
Presence is tested by numeric truthiness, so a set crossing at offset
exactly 0 is reported as -1; a rise offset of exactly 0 (covering
both the no-rise day and a rise crossing exactly at midnight) instead
makes the classification expression raise TypeError, so no MoonTimes
with an absent rise is ever returned.  Stated over the scan core for
an arbitrary altitude profile. -/
theorem c10_rise_set_sentinel_or_in_day (hFun : ℕ → ℝ) (t : ℝ) (mt : MoonTimesStruct)
    (h : get_moon_times_result hFun t = .ok mt) :
    (mt.rise = -1 ∨ (t < mt.rise ∧ mt.rise ≤ t + 86400)) ∧
    (mt.set = -1 ∨ (t < mt.set ∧ mt.set ≤ t + 86400)) := by
  unfold get_moon_times_result at h
  cases hrw : runWindows hFun windowIndices ⟨hFun 0, 0, 0, 0⟩ with
  | error e =>
    rw [hrw] at h
    exact Except.noConfusion h
  | ok s =>
    rw [hrw] at h
    have hbounds := runWindows_bounds hFun windowIndices ⟨hFun 0, 0, 0, 0⟩ s
      (by decide) (by norm_num) hrw
    obtain ⟨hr0, hr24, hs0, hs24⟩ := hbounds
    by_cases hr : s.rise = 0
    · rw [finishTimes_rise_zero t s hr] at h
      exact Except.noConfusion h
    · rw [finishTimes_ok_truthy_rise t s hr] at h
      simp only [Except.ok.injEq] at h
      rw [← h]
      constructor
      · right
        show t < hours_later t s.rise ∧ hours_later t s.rise ≤ t + 86400
        have hpos : 0 < s.rise := lt_of_le_of_ne hr0 (Ne.symm hr)
        unfold hours_later
        constructor <;> linarith
      · by_cases hset : s.set ≠ 0
        · right
          show t < (if s.set ≠ 0 then hours_later t s.set else -1) ∧
            (if s.set ≠ 0 then hours_later t s.set else -1) ≤ t + 86400
          rw [if_pos hset]
          have hpos : 0 < s.set := lt_of_le_of_ne hs0 (Ne.symm hset)
          unfold hours_later
          constructor <;> linarith
        · left
          show (if s.set ≠ 0 then hours_later t s.set else -1) = -1
          rw [if_neg hset]

/-- Witness for the amended C10 on the concrete qRise profile. -/
theorem c10_rise_set_sentinel_or_in_day_witness :
    get_moon_times_result qRise 0 = .ok (MoonTimesStruct.mk 5400 (-1) false false) ∧
    (((5400 : ℝ) = -1 ∨ ((0 : ℝ) < 5400 ∧ (5400 : ℝ) ≤ 0 + 86400)) ∧
      ((-1 : ℝ) = -1 ∨ ((0 : ℝ) < -1 ∧ (-1 : ℝ) ≤ 0 + 86400))) :=
  ⟨qRise_run, c10_rise_set_sentinel_or_in_day qRise 0
    (MoonTimesStruct.mk 5400 (-1) false false) qRise_run⟩

/-- Witness for C3 on the concrete qRise profile. -/
theorem c3_flags_mutually_exclusive_witness :
    get_moon_times_result qRise 0 = .ok (MoonTimesStruct.mk 5400 (-1) false false) ∧
    (¬((false : Bool) = true ∧ (false : Bool) = true) ∧
      (((5400 : ℝ) ≠ -1 ∨ ((-1 : ℝ) ≠ -1)) →
        (false : Bool) = false ∧ (false : Bool) = false)) :=
  ⟨qRise_run, c3_flags_mutually_exclusive qRise 0
    (MoonTimesStruct.mk 5400 (-1) false false) qRise_run⟩

/-- Witness for C6 at the first window of the qRise profile
(a = -1, d = 6.25, one in-range root). -/
theorem c6_window_case_analysis_witness :
    stepA qRise 1 (-6 : ℝ) ≠ 0 ∧ 0 ≤ stepD qRise 1 (-6 : ℝ) ∧
    ((stepRoots qRise 1 (-6 : ℝ) = 1 →
      ∃ r, |r| ≤ 1 ∧ (r = stepX1 qRise 1 (-6 : ℝ) ∨ r = stepX2 qRise 1 (-6 : ℝ)) ∧
        windowStep qRise 1 (LoopState.mk (-6) 0 0 0) =
          .ok (if (-6 : ℝ) < 0 then { LoopState.mk (-6) 0 0 0 with ye := stepYe qRise 1 (-6 : ℝ), rise := (1 : ℕ) + r }
               else { LoopState.mk (-6) 0 0 0 with ye := stepYe qRise 1 (-6 : ℝ), set := (1 : ℕ) + r })) ∧
    (stepRoots qRise 1 (-6 : ℝ) = 2 →
      stepX1 qRise 1 (-6 : ℝ) ≤ stepX2 qRise 1 (-6 : ℝ) ∧
        windowStep qRise 1 (LoopState.mk (-6) 0 0 0) =
          .ok { LoopState.mk (-6) 0 0 0 with ye := stepYe qRise 1 (-6 : ℝ), rise := (1 : ℕ) + (if stepYe qRise 1 (-6 : ℝ) < 0 then stepX2 qRise 1 (-6 : ℝ) else stepX1 qRise 1 (-6 : ℝ)), set := (1 : ℕ) + (if stepYe qRise 1 (-6 : ℝ) < 0 then stepX1 qRise 1 (-6 : ℝ) else stepX2 qRise 1 (-6 : ℝ)) })) := by
  have ha : stepA qRise 1 (-6 : ℝ) ≠ 0 := by norm_num [stepA, qRise]
  have hd : 0 ≤ stepD qRise 1 (-6 : ℝ) := by norm_num [stepD, stepB, stepA, qRise]
  exact ⟨ha, hd, c6_window_case_analysis qRise 1 (LoopState.mk (-6) 0 0 0) ha hd⟩
